import Mathlib

/-!
Shallow embedding of the domain and application layers of the
`tienda-clean-arquitecture` storefront (src/domain.tsx, src/application.tsx,
and the `Money` value object from src/enunciado.md).

TypeScript `number` fields (price, stock, quantity, amounts) are embedded as
`Int`; the in-scope behaviour only involves integer arithmetic.  Methods that
can `throw` are embedded as functions returning `Except String _` carrying the
thrown message; methods that cannot throw are total functions.  Mutation of
`this` is embedded as returning the updated value.
-/

namespace Tienda

/-- Embedding of the `Product` entity (src/domain.tsx, class `Product`). -/
structure Product where
  id : String
  name : String
  price : Int
  stock : Int
deriving Repr, DecidableEq

/-- `Product.decreaseStock` (src/domain.tsx lines 30-35): throws
"Stock insuficiente" when `quantity > this.stock`, otherwise `this.stock -= quantity`. -/
def Product.decreaseStock (p : Product) (quantity : Int) : Except String Product :=
  if quantity > p.stock then Except.error "Stock insuficiente"
  else Except.ok { p with stock := p.stock - quantity }

/-- `Product.increaseStock` (src/domain.tsx lines 37-39): unconditionally
`this.stock += quantity`; it cannot throw, hence a total function. -/
def Product.increaseStock (p : Product) (quantity : Int) : Product :=
  { p with stock := p.stock + quantity }

/-- Embedding of the `OrderItem` entity (src/domain.tsx, class `OrderItem`). -/
structure OrderItem where
  productId : String
  quantity : Int
  price : Int
deriving Repr, DecidableEq

/-- The four order statuses of the `Order` entity (src/domain.tsx lines 52-57). -/
inductive OrderStatus where
  | pending
  | processing
  | completed
  | cancelled
deriving Repr, DecidableEq

/-- Embedding of the `Order` entity (src/domain.tsx, class `Order`). -/
structure Order where
  id : String
  customerId : String
  status : OrderStatus
  items : List OrderItem
  totalAmount : Int
deriving Repr, DecidableEq

/-- The `Order` constructor: `new Order(id, customerId)` starts `pending`
with no items and `totalAmount = 0` (src/domain.tsx lines 45-57). -/
def Order.new (id customerId : String) : Order :=
  { id := id, customerId := customerId, status := OrderStatus.pending,
    items := [], totalAmount := 0 }

/-- The `reduce` in `Order.recalculateTotal` (src/domain.tsx lines 69-74):
`items.reduce((total, item) => total + item.quantity * item.price, 0)`. -/
def sumItems (items : List OrderItem) : Int :=
  items.foldl (fun total item => total + item.quantity * item.price) 0

/-- `Order.recalculateTotal` (src/domain.tsx lines 69-74). -/
def Order.recalculateTotal (o : Order) : Order :=
  { o with totalAmount := sumItems o.items }

/-- `Order.addItem` (src/domain.tsx lines 59-62): push then recalculate. -/
def Order.addItem (o : Order) (item : OrderItem) : Order :=
  Order.recalculateTotal { o with items := o.items ++ [item] }

/-- `Order.removeItem` (src/domain.tsx lines 64-67):
`this.items = this.items.filter((item) => item.productId !== productId)`
then recalculate.  It cannot throw, hence a total function. -/
def Order.removeItem (o : Order) (productId : String) : Order :=
  Order.recalculateTotal
    { o with items := o.items.filter (fun item => item.productId != productId) }

/-- `Order.process` (src/domain.tsx lines 76-81): throws unless `pending`,
otherwise sets status to `processing`. -/
def Order.process (o : Order) : Except String Order :=
  if o.status ≠ OrderStatus.pending then
    Except.error "La orden no está en estado pendiente"
  else Except.ok { o with status := OrderStatus.processing }

/-- `Order.complete` (src/domain.tsx lines 83-88): throws unless `processing`,
otherwise sets status to `completed`. -/
def Order.complete (o : Order) : Except String Order :=
  if o.status ≠ OrderStatus.processing then
    Except.error "La orden no está en estado de procesamiento"
  else Except.ok { o with status := OrderStatus.completed }

/-- `Order.cancel` (src/domain.tsx lines 90-95): throws only when `completed`,
otherwise sets status to `cancelled` (including from `cancelled` itself). -/
def Order.cancel (o : Order) : Except String Order :=
  if o.status = OrderStatus.completed then
    Except.error "No se puede cancelar una orden completada"
  else Except.ok { o with status := OrderStatus.cancelled }

/-- A single mutating call on an order: `addItem` or `removeItem`. -/
inductive OrderOp where
  | add (item : OrderItem)
  | remove (productId : String)

/-- Apply one `addItem`/`removeItem` call. -/
def Order.applyOp (o : Order) : OrderOp → Order
  | OrderOp.add item => o.addItem item
  | OrderOp.remove pid => o.removeItem pid

/-- Apply a sequence of `addItem`/`removeItem` calls, front first. -/
def Order.applyOps (o : Order) : List OrderOp → Order
  | [] => o
  | op :: ops => (o.applyOp op).applyOps ops

/-- An order is reachable when it is produced from the constructor by some
sequence of `addItem`/`removeItem` calls. -/
def Order.Reachable (o : Order) : Prop :=
  ∃ id customerId ops, o = (Order.new id customerId).applyOps ops

/-- Embedding of the `Money` value object (src/enunciado.md lines 361-388). -/
structure Money where
  amount : Int
  currency : String
deriving Repr, DecidableEq

/-- `Money.create` (src/enunciado.md lines 364-372): rejects negative amounts,
then currency codes whose length is not 3. -/
def Money.create (amount : Int) (currency : String) : Except String Money :=
  if amount < 0 then Except.error "El monto no puede ser negativo"
  else if currency.length ≠ 3 then
    Except.error "El código de moneda debe tener 3 caracteres"
  else Except.ok { amount := amount, currency := currency }

/-- `Money.add` (src/enunciado.md lines 382-387): rejects mismatched
currencies, otherwise re-creates from the summed amount. -/
def Money.add (m other : Money) : Except String Money :=
  if m.currency ≠ other.currency then
    Except.error "No se pueden sumar montos de diferentes monedas"
  else Money.create (m.amount + other.amount) m.currency

/-- Embedding of the `User` entity (src/domain.tsx, class `User`). -/
structure User where
  id : String
  email : String
  name : String
  role : String
deriving Repr, DecidableEq

/-- Joint state of the product and order repositories seen by
`CreateOrderUseCase` (src/application.tsx).  The sequential `await` calls of
the use case are embedded as explicit state passing over this record. -/
structure RepoState where
  products : List Product
  orders : List Order
deriving Repr, DecidableEq

/-- `productRepository.findById`: lookup of the product with the given id. -/
def findProductById (st : RepoState) (pid : String) : Option Product :=
  st.products.find? (fun p => p.id == pid)

/-- `productRepository.save`: replaces the stored product carrying the same
id by the given one (a PUT-style update, as in `ApiProductRepository.save`). -/
def saveProduct (st : RepoState) (p : Product) : RepoState :=
  { st with products := st.products.map (fun q => if q.id == p.id then p else q) }

/-- `orderRepository.save`: records the order in the order repository. -/
def saveOrder (st : RepoState) (o : Order) : RepoState :=
  { st with orders := st.orders ++ [o] }

/-- One requested line of `CreateOrderUseCase.execute`:
`{ productId: string; quantity: number }`. -/
structure ReqItem where
  productId : String
  quantity : Int
deriving Repr, DecidableEq

/-- The `for (const item of items)` loop of `CreateOrderUseCase.execute`
(src/application.tsx lines 26-40): per item, find the product (throw if
absent), throw if `product.stock < item.quantity`, `product.decreaseStock`,
save the product, and append a line item snapshotting the current price.
A throw propagates, leaving the repository state already reached. -/
def createOrderLoop (order : Order) (items : List ReqItem) (st : RepoState) :
    Except String Order × RepoState :=
  match items with
  | [] => (Except.ok order, st)
  | item :: rest =>
    match findProductById st item.productId with
    | none => (Except.error ("Producto " ++ item.productId ++ " no encontrado"), st)
    | some product =>
      if product.stock < item.quantity then
        (Except.error ("Stock insuficiente para el producto " ++ product.name), st)
      else
        match product.decreaseStock item.quantity with
        | Except.error e => (Except.error e, st)
        | Except.ok product2 =>
          createOrderLoop
            (order.addItem
              { productId := product2.id, quantity := item.quantity,
                price := product2.price })
            rest (saveProduct st product2)

/-- `CreateOrderUseCase.execute` (src/application.tsx lines 20-45).  The
nondeterministic `Date.now().toString()` order id is taken as the `orderId`
argument.  Returns the result (order or thrown message) together with the
final repository state. -/
def CreateOrderUseCase.execute (orderId customerId : String)
    (items : List ReqItem) (st : RepoState) : Except String Order × RepoState :=
  match createOrderLoop (Order.new orderId customerId) items st with
  | (Except.ok order, st2) => (Except.ok order, saveOrder st2 order)
  | (Except.error e, st2) => (Except.error e, st2)

/-- `AuthenticateUserUseCase.execute` (src/application.tsx lines 58-65):
looks the user up by email, throws "Usuario no encontrado" if absent, else
returns `authService.authenticate(email, password)`.  `findByEmail` embeds
the user repository and `authenticate` the authentication service; the second
component of the result is the list of calls made to `authenticate`. -/
def AuthenticateUserUseCase.execute (findByEmail : String → Option User)
    (authenticate : String → String → Except String String)
    (email password : String) :
    Except String String × List (String × String) :=
  match findByEmail email with
  | none => (Except.error "Usuario no encontrado", [])
  | some _ => (authenticate email password, [(email, password)])

/-- An item request is unsatisfiable against a repository state when its
product is absent or its quantity exceeds that product's current stock. -/
def badItem (st : RepoState) (i : ReqItem) : Bool :=
  match findProductById st i.productId with
  | none => true
  | some p => p.stock < i.quantity

/-! ## Helper lemmas -/

/-- A single `addItem`/`removeItem` call recomputes `totalAmount` from the
resulting items, whatever the previous state. -/
lemma Order.applyOp_totalAmount (o : Order) (op : OrderOp) :
    (o.applyOp op).totalAmount = sumItems (o.applyOp op).items := by
  cases op <;>
    simp [Order.applyOp, Order.addItem, Order.removeItem, Order.recalculateTotal]

/-- The `totalAmount = Σ quantity × price` invariant survives any sequence of
`addItem`/`removeItem` calls. -/
lemma Order.applyOps_totalAmount (o : Order) (ops : List OrderOp)
    (h : o.totalAmount = sumItems o.items) :
    (o.applyOps ops).totalAmount = sumItems (o.applyOps ops).items := by
  induction ops generalizing o with
  | nil => simpa [Order.applyOps] using h
  | cons op ops ih =>
    simp only [Order.applyOps]
    exact ih _ (Order.applyOp_totalAmount o op)

/-- Every reachable order satisfies `totalAmount = Σ quantity × price`. -/
lemma Order.reachable_totalAmount (o : Order) (h : o.Reachable) :
    o.totalAmount = sumItems o.items := by
  obtain ⟨id, cid, ops, rfl⟩ := h
  exact Order.applyOps_totalAmount _ _ (by simp [Order.new, sumItems])

/-- Saving a product rewrites the stored product with the same id and leaves
every lookup otherwise unchanged. -/
lemma findProductById_saveProduct (st : RepoState) (p' : Product) (pid : String) :
    findProductById (saveProduct st p') pid =
      (findProductById st pid).map (fun q => if q.id == p'.id then p' else q) := by
  unfold findProductById saveProduct
  rw [List.find?_map]
  have hpred : ((fun p => p.id == pid) ∘ fun q => if q.id == p'.id then p' else q) =
      fun p => p.id == pid := by
    funext q
    by_cases h : q.id = p'.id
    · simp [Function.comp, h]
    · simp [Function.comp, h]
  rw [hpred]

/-- An unsatisfiable item request stays unsatisfiable after saving a product
whose stock does not exceed the stock stored under its id. -/
lemma badItem_saveProduct (st : RepoState) (i : ReqItem) (p' : Product)
    (hmono : ∀ q, findProductById st p'.id = some q → p'.stock ≤ q.stock)
    (hbad : badItem st i = true) :
    badItem (saveProduct st p') i = true := by
  unfold badItem at hbad ⊢
  rw [findProductById_saveProduct]
  cases hf : findProductById st i.productId with
  | none => simp
  | some p =>
    rw [hf] at hbad
    have hpe : p.id = i.productId := by
      have h2 : st.products.find? (fun q => q.id == i.productId) = some p := hf
      simpa using List.find?_some h2
    by_cases h : p.id = p'.id
    · have hfp : findProductById st p'.id = some p := by
        rw [← h, hpe]
        exact hf
      have hle : p'.stock ≤ p.stock := hmono p hfp
      have hlt : p.stock < i.quantity := by simpa using hbad
      simp [h]
      omega
    · simpa [h] using hbad

/-- The order-creation loop never touches the order repository. -/
lemma createOrderLoop_orders (order : Order) (items : List ReqItem)
    (st : RepoState) :
    (createOrderLoop order items st).2.orders = st.orders := by
  induction items generalizing order st with
  | nil => rfl
  | cons item rest ih =>
    simp only [createOrderLoop]
    cases hf : findProductById st item.productId with
    | none => rfl
    | some product =>
      by_cases hst : product.stock < item.quantity
      · simp [hst]
      · simp only [hst, if_false]
        cases hd : product.decreaseStock item.quantity with
        | error e => rfl
        | ok p2 => exact ih _ (saveProduct st p2)

/-- If some item of the list is unsatisfiable against the incoming repository
state and all quantities are non-negative, the loop throws, and the final
state is exactly the state after the successfully processed first `k` items:
their stock decrements stay committed and nothing is rolled back. -/
lemma createOrderLoop_fails_of_bad (items : List ReqItem) (order : Order)
    (st : RepoState) (hq : ∀ i ∈ items, 0 ≤ i.quantity)
    (hbad : ∃ i ∈ items, badItem st i = true) :
    ∃ e k, k ≤ items.length ∧
      createOrderLoop order items st =
        (Except.error e, (createOrderLoop order (items.take k) st).2) ∧
      ∃ o2, (createOrderLoop order (items.take k) st).1 = Except.ok o2 := by
  induction items generalizing order st with
  | nil => simp at hbad
  | cons item rest ih =>
    cases hf : findProductById st item.productId with
    | none =>
      refine ⟨"Producto " ++ item.productId ++ " no encontrado", 0,
        by simp, ?_, order, rfl⟩
      simp [createOrderLoop, hf]
    | some product =>
      by_cases hst : product.stock < item.quantity
      · refine ⟨"Stock insuficiente para el producto " ++ product.name, 0,
          by simp, ?_, order, rfl⟩
        simp [createOrderLoop, hf, hst]
      · have hq0 : 0 ≤ item.quantity := hq item (by simp)
        have hdec : product.decreaseStock item.quantity =
            Except.ok { product with stock := product.stock - item.quantity } := by
          simp [Product.decreaseStock, hst]
        obtain ⟨i, hi, hbadi⟩ := hbad
        have hirest : i ∈ rest := by
          rcases List.mem_cons.mp hi with rfl | hi2
          · exfalso
            unfold badItem at hbadi
            rw [hf] at hbadi
            exact hst (by simpa using hbadi)
          · exact hi2
        have hpid : product.id = item.productId := by
          have h2 : st.products.find? (fun q => q.id == item.productId) =
              some product := hf
          simpa using List.find?_some h2
        have hbad2 : badItem
            (saveProduct st { product with stock := product.stock - item.quantity })
            i = true := by
          apply badItem_saveProduct st i _ _ hbadi
          intro q hfq
          have h3 : findProductById st item.productId = some q := by
            simpa [hpid] using hfq
          rw [hf] at h3
          injection h3 with h4
          subst h4
          simp
          omega
        obtain ⟨e, k, hk, heq, o2, hok⟩ :=
          ih (order.addItem
              { productId := product.id, quantity := item.quantity,
                price := product.price })
            (saveProduct st { product with stock := product.stock - item.quantity })
            (fun j hj => hq j (List.mem_cons_of_mem _ hj)) ⟨i, hirest, hbad2⟩
        refine ⟨e, k + 1, by simpa using Nat.succ_le_succ hk, ?_, o2, ?_⟩
        · simpa [createOrderLoop, hf, hst, hdec, List.take_succ_cons] using heq
        · simpa [createOrderLoop, hf, hst, hdec, List.take_succ_cons] using hok

/-! ## Claims -/

/-- C1 (counterexample): the claim says `cancel()` fails whenever the status
is `completed` or `cancelled`, but on the cancelled order obtained by
cancelling a fresh order, a second `cancel()` succeeds. -/
theorem c1_counterexample :
    ((Order.new "o1" "c1").cancel = Except.ok
        { id := "o1", customerId := "c1", status := OrderStatus.cancelled,
          items := [], totalAmount := 0 }) ∧
    ({ id := "o1", customerId := "c1", status := OrderStatus.cancelled,
       items := [], totalAmount := 0 } : Order).cancel =
      Except.ok { id := "o1", customerId := "c1", status := OrderStatus.cancelled,
                  items := [], totalAmount := 0 } :=
  ⟨rfl, rfl⟩

/-- C1 (amended): `process` succeeds exactly from `pending` (to `processing`),
`complete` exactly from `processing` (to `completed`), and `cancel` fails
exactly from `completed`, succeeding to `cancelled` from `pending`,
`processing` and also (as a self-loop) from `cancelled`. -/
theorem c1_status_transitions (o : Order) :
    o.process = (if o.status = OrderStatus.pending
        then Except.ok { o with status := OrderStatus.processing }
        else Except.error "La orden no está en estado pendiente") ∧
    o.complete = (if o.status = OrderStatus.processing
        then Except.ok { o with status := OrderStatus.completed }
        else Except.error "La orden no está en estado de procesamiento") ∧
    o.cancel = (if o.status = OrderStatus.completed
        then Except.error "No se puede cancelar una orden completada"
        else Except.ok { o with status := OrderStatus.cancelled }) := by
  refine ⟨?_, ?_, ?_⟩ <;> cases h : o.status <;>
    simp [Order.process, Order.complete, Order.cancel, h]

/-- C4: after each `addItem`/`removeItem` call — the last call `op` of any
sequence `ops` started from any order — `totalAmount` equals the sum over the
current items of `quantity × price`. -/
theorem c4_totalAmount_invariant (o : Order) (ops : List OrderOp) (op : OrderOp) :
    ((o.applyOps ops).applyOp op).totalAmount =
      sumItems ((o.applyOps ops).applyOp op).items :=
  Order.applyOp_totalAmount _ _

/-- C5: with non-negative stock, a non-negative quantity at most the stock,
`decreaseStock` succeeds, leaving `stock - quantity`, which is non-negative. -/
theorem c5_decreaseStock_ok (p : Product) (q : Int)
    (hstock : 0 ≤ p.stock) (hq : 0 ≤ q) (hle : q ≤ p.stock) :
    p.decreaseStock q = Except.ok { p with stock := p.stock - q } ∧
    0 ≤ p.stock - q := by
  constructor
  · simp [Product.decreaseStock, not_lt.mpr hle]
  · omega

/-- C5 witness: product with stock 5, quantity 2. -/
theorem c5_witness :
    (Product.mk "p1" "Producto" 10 5).decreaseStock 2 =
      Except.ok { Product.mk "p1" "Producto" 10 5 with stock := (5 : Int) - 2 } ∧
    (0 : Int) ≤ (Product.mk "p1" "Producto" 10 5).stock - 2 :=
  c5_decreaseStock_ok (Product.mk "p1" "Producto" 10 5) 2
    (by decide) (by decide) (by decide)

/-- C6: when the quantity exceeds the stock, `decreaseStock` throws
"Stock insuficiente"; in this pure embedding the error result carries no
updated product, so the product's stock is unchanged by the call. -/
theorem c6_decreaseStock_insufficient (p : Product) (q : Int)
    (h : p.stock < q) :
    p.decreaseStock q = Except.error "Stock insuficiente" := by
  simp [Product.decreaseStock, h]

/-- C6 witness: product with stock 5, quantity 7. -/
theorem c6_witness :
    (Product.mk "p1" "Producto" 10 5).decreaseStock 7 =
      Except.error "Stock insuficiente" :=
  c6_decreaseStock_insufficient (Product.mk "p1" "Producto" 10 5) 7 (by decide)

/-- C9: `increaseStock` is total (never fails), imposes no upper bound, and
leaves the stock equal to the old stock plus the quantity; for non-negative
quantities this never decreases the stock. -/
theorem c9_increaseStock (p : Product) (q : Int) :
    p.increaseStock q = { p with stock := p.stock + q } ∧
    (0 ≤ q → p.stock ≤ (p.increaseStock q).stock) := by
  refine ⟨rfl, fun h => ?_⟩
  simp only [Product.increaseStock]
  omega

/-- C9 witness: product with stock 5, quantity 3. -/
theorem c9_witness :
    (Product.mk "p1" "Producto" 10 5).increaseStock 3 =
      { Product.mk "p1" "Producto" 10 5 with stock := (5 : Int) + 3 } ∧
    (Product.mk "p1" "Producto" 10 5).stock ≤
      ((Product.mk "p1" "Producto" 10 5).increaseStock 3).stock :=
  ⟨(c9_increaseStock (Product.mk "p1" "Producto" 10 5) 3).1,
   (c9_increaseStock (Product.mk "p1" "Producto" 10 5) 3).2 (by decide)⟩

/-- C7: `Money.create` fails on every negative amount and on every currency
code whose length is not 3; `Money.add` fails whenever the currencies differ;
in particular `Money.create (-1) "USD"` fails and adding 5 USD to 5 EUR
(each built by `Money.create`) fails with the currency-mismatch message. -/
theorem c7_money_validation :
    (∀ (a : Int) (c : String), a < 0 →
      Money.create a c = Except.error "El monto no puede ser negativo") ∧
    (∀ (a : Int) (c : String), c.length ≠ 3 →
      ∃ e, Money.create a c = Except.error e) ∧
    (∀ m other : Money, m.currency ≠ other.currency →
      m.add other = Except.error "No se pueden sumar montos de diferentes monedas") ∧
    Money.create (-1) "USD" = Except.error "El monto no puede ser negativo" ∧
    (do
      let a ← Money.create 5 "USD"
      let b ← Money.create 5 "EUR"
      a.add b) = Except.error "No se pueden sumar montos de diferentes monedas" := by
  refine ⟨?_, ?_, ?_, ?_, ?_⟩
  · intro a c h
    simp [Money.create, h]
  · intro a c h
    by_cases ha : a < 0
    · exact ⟨"El monto no puede ser negativo", by simp [Money.create, ha]⟩
    · exact ⟨"El código de moneda debe tener 3 caracteres",
        by simp [Money.create, ha, h]⟩
  · intro m other h
    simp [Money.add, h]
  · rfl
  · rfl

/-- C7 witness: concrete instances of the three universally quantified parts. -/
theorem c7_witness :
    Money.create (-2) "USD" = Except.error "El monto no puede ser negativo" ∧
    (∃ e, Money.create 5 "EURO" = Except.error e) ∧
    (Money.mk 5 "USD").add (Money.mk 5 "EUR") =
      Except.error "No se pueden sumar montos de diferentes monedas" :=
  ⟨c7_money_validation.1 (-2) "USD" (by decide),
   c7_money_validation.2.1 5 "EURO" (by decide),
   c7_money_validation.2.2.1 (Money.mk 5 "USD") (Money.mk 5 "EUR") (by decide)⟩

/-- C8: when the user repository returns no user for the email,
`AuthenticateUserUseCase.execute` fails with "Usuario no encontrado" and the
list of calls made to the authentication service's `authenticate` is empty. -/
theorem c8_auth_unknown_email (findByEmail : String → Option User)
    (authenticate : String → String → Except String String)
    (email password : String) (h : findByEmail email = none) :
    AuthenticateUserUseCase.execute findByEmail authenticate email password =
      (Except.error "Usuario no encontrado", []) := by
  simp [AuthenticateUserUseCase.execute, h]

/-- C8 witness: an empty user repository and a token-issuing service. -/
theorem c8_witness :
    AuthenticateUserUseCase.execute (fun _ => none)
      (fun e _ => Except.ok ("token-" ++ e)) "ana@example.com" "pw" =
      (Except.error "Usuario no encontrado", []) :=
  c8_auth_unknown_email (fun _ => none) (fun e _ => Except.ok ("token-" ++ e))
    "ana@example.com" "pw" rfl

/-- C10: `removeItem` (a total function: it never throws) filters out every
line item with the given product id; on a reachable order with no matching
item the order — items and totalAmount included — is unchanged. -/
theorem c10_removeItem (o : Order) (pid : String) (h : o.Reachable) :
    (o.removeItem pid).items =
      o.items.filter (fun item => item.productId != pid) ∧
    (∀ item ∈ (o.removeItem pid).items, item.productId ≠ pid) ∧
    ((∀ item ∈ o.items, item.productId ≠ pid) → o.removeItem pid = o) := by
  have htot := Order.reachable_totalAmount o h
  refine ⟨rfl, ?_, ?_⟩
  · intro item hm
    have hm2 : item ∈ o.items.filter (fun item => item.productId != pid) := hm
    simpa [bne_iff_ne] using (List.mem_filter.mp hm2).2
  · intro hnone
    have hfil : o.items.filter (fun item => item.productId != pid) = o.items := by
      apply List.filter_eq_self.mpr
      intro a ha
      simpa [bne_iff_ne] using hnone a ha
    cases o with
    | mk id cid status items total =>
      simp only [Order.removeItem, Order.recalculateTotal, hfil] at htot ⊢
      simp [htot]

/-- C10 witness: a reachable one-item order, removing an absent product id. -/
theorem c10_witness :
    ((Order.applyOps (Order.new "o1" "c1")
        [OrderOp.add (OrderItem.mk "p1" 2 10)]).removeItem "p2").items =
      (Order.applyOps (Order.new "o1" "c1")
        [OrderOp.add (OrderItem.mk "p1" 2 10)]).items.filter
          (fun item => item.productId != "p2") ∧
    (∀ item ∈ ((Order.applyOps (Order.new "o1" "c1")
        [OrderOp.add (OrderItem.mk "p1" 2 10)]).removeItem "p2").items,
      item.productId ≠ "p2") ∧
    ((∀ item ∈ (Order.applyOps (Order.new "o1" "c1")
        [OrderOp.add (OrderItem.mk "p1" 2 10)]).items, item.productId ≠ "p2") →
      (Order.applyOps (Order.new "o1" "c1")
        [OrderOp.add (OrderItem.mk "p1" 2 10)]).removeItem "p2" =
        Order.applyOps (Order.new "o1" "c1")
          [OrderOp.add (OrderItem.mk "p1" 2 10)]) :=
  c10_removeItem _ "p2"
    ⟨"o1", "c1", [OrderOp.add (OrderItem.mk "p1" 2 10)], rfl⟩

/-- C2 (counterexample): the claim quantifies over every items list, but a
negative quantity slips through both guards and increases stock.  Here p1 has
stock 5 and the second item requests quantity 7 > 5, yet after the first item
(quantity -10) raises the stock to 15, execute succeeds and saves the order. -/
theorem c2_counterexample :
    findProductById (RepoState.mk [Product.mk "p1" "Producto 1" 10 5] []) "p1" =
      some (Product.mk "p1" "Producto 1" 10 5) ∧
    (Product.mk "p1" "Producto 1" 10 5).stock < (ReqItem.mk "p1" 7).quantity ∧
    (∃ o2, (CreateOrderUseCase.execute "o1" "c1"
        [ReqItem.mk "p1" (-10), ReqItem.mk "p1" 7]
        (RepoState.mk [Product.mk "p1" "Producto 1" 10 5] [])).1 =
          Except.ok o2) ∧
    (CreateOrderUseCase.execute "o1" "c1"
        [ReqItem.mk "p1" (-10), ReqItem.mk "p1" 7]
        (RepoState.mk [Product.mk "p1" "Producto 1" 10 5] [])).2.orders ≠ [] := by
  refine ⟨rfl, by decide, ⟨_, rfl⟩, by decide⟩

/-- C2 (amended): for items lists whose quantities are all non-negative, if
some item's product is absent or its quantity exceeds that product's stock,
`CreateOrderUseCase.execute` fails, the order repository is unchanged (the
order is never saved), and the final product repository state is exactly the
state after the successfully processed first `k` items: earlier stock
decrements remain committed, with no rollback. -/
theorem c2_create_order_failure (orderId customerId : String)
    (items : List ReqItem) (st : RepoState)
    (hq : ∀ i ∈ items, 0 ≤ i.quantity)
    (hbad : ∃ i ∈ items, badItem st i = true) :
    ∃ e, (CreateOrderUseCase.execute orderId customerId items st).1 =
        Except.error e ∧
      (CreateOrderUseCase.execute orderId customerId items st).2.orders =
        st.orders ∧
      ∃ k ≤ items.length,
        (CreateOrderUseCase.execute orderId customerId items st).2 =
          (createOrderLoop (Order.new orderId customerId) (items.take k) st).2 ∧
        ∃ o2, (createOrderLoop (Order.new orderId customerId)
          (items.take k) st).1 = Except.ok o2 := by
  obtain ⟨e, k, hk, heq, o2, hok⟩ :=
    createOrderLoop_fails_of_bad items (Order.new orderId customerId) st hq hbad
  refine ⟨e, ?_, ?_, k, hk, ?_, o2, hok⟩
  · simp [CreateOrderUseCase.execute, heq]
  · have h2 := createOrderLoop_orders (Order.new orderId customerId) items st
    simp only [CreateOrderUseCase.execute, heq] at h2 ⊢
    simpa using h2
  · simp [CreateOrderUseCase.execute, heq]

/-- C2 witness: p1 has stock 5 and the single item requests 7. -/
theorem c2_witness :
    ∃ e, (CreateOrderUseCase.execute "o1" "c1" [ReqItem.mk "p1" 7]
        (RepoState.mk [Product.mk "p1" "Producto 1" 10 5] [])).1 =
        Except.error e ∧
      (CreateOrderUseCase.execute "o1" "c1" [ReqItem.mk "p1" 7]
        (RepoState.mk [Product.mk "p1" "Producto 1" 10 5] [])).2.orders =
        (RepoState.mk [Product.mk "p1" "Producto 1" 10 5] []).orders ∧
      ∃ k ≤ [ReqItem.mk "p1" 7].length,
        (CreateOrderUseCase.execute "o1" "c1" [ReqItem.mk "p1" 7]
          (RepoState.mk [Product.mk "p1" "Producto 1" 10 5] [])).2 =
          (createOrderLoop (Order.new "o1" "c1") ([ReqItem.mk "p1" 7].take k)
            (RepoState.mk [Product.mk "p1" "Producto 1" 10 5] [])).2 ∧
        ∃ o2, (createOrderLoop (Order.new "o1" "c1") ([ReqItem.mk "p1" 7].take k)
          (RepoState.mk [Product.mk "p1" "Producto 1" 10 5] [])).1 =
            Except.ok o2 :=
  c2_create_order_failure "o1" "c1" [ReqItem.mk "p1" 7]
    (RepoState.mk [Product.mk "p1" "Producto 1" 10 5] [])
    (by decide) (by decide)

/-- C3: with product p1 (price 10, stock 5) in the repository, ordering 2
units of p1 returns an order with exactly the line item (p1, 2, 10) and
totalAmount 20, saves p1 with stock 3, and saves that order. -/
theorem c3_concrete_order :
    CreateOrderUseCase.execute "o1" "c1" [ReqItem.mk "p1" 2]
        (RepoState.mk [Product.mk "p1" "Producto 1" 10 5] []) =
      (Except.ok (Order.mk "o1" "c1" OrderStatus.pending
          [OrderItem.mk "p1" 2 10] 20),
       RepoState.mk [Product.mk "p1" "Producto 1" 10 3]
         [Order.mk "o1" "c1" OrderStatus.pending [OrderItem.mk "p1" 2 10] 20]) := by
  rfl

end Tienda
